import Mathlib

/-!
Verification development for the backporter repository.

The Python sources are shallowly embedded over `List Char` ("Str" below):
pure helper functions from `src/backporter/main.py`,
`src/backporter/changelog_extract.py` and `src/changelog_extract.py` become
Lean functions, and the stateful orchestration code of `main` becomes pure
functions over explicit environment records together with command traces.
Subprocess results are passed in explicitly as `CompletedProcess` values.
Whitespace classes are modelled at the ASCII level (the characters relevant
to the program's inputs).
-/

/-- Character strings are modelled as lists of characters; `"lit".data`
produces concrete values. -/
abbrev Str := List Char

/-- Python `str.isspace` / the regex class matched by a single whitespace
character, restricted to the ASCII whitespace characters. -/
def pyIsSpace (c : Char) : Bool :=
  c = ' ' || c = '\t' || c = '\n' || c = '\x0d' || c = '\x0b' || c = '\x0c'

/-- Python `str.lstrip()` (no argument): drop leading whitespace. -/
def pyLStrip (s : Str) : Str := s.dropWhile pyIsSpace

/-- Python `str.rstrip()` (no argument): drop trailing whitespace. -/
def pyRStrip (s : Str) : Str := (s.reverse.dropWhile pyIsSpace).reverse

/-- Python `str.strip()` (no argument): drop whitespace from both ends. -/
def pyStrip (s : Str) : Str := pyRStrip (pyLStrip s)

/-- Line-boundary characters recognised by Python `str.splitlines`. -/
def lineBreakChar (c : Char) : Bool :=
  c = '\n' || c = '\x0d' || c = '\x0b' || c = '\x0c' ||
  c = '\x1c' || c = '\x1d' || c = '\x1e' || c = '\x85' ||
  c = '\u2028' || c = '\u2029'

/-- Python `str.splitlines()`: accumulator-based splitter treating `\r\n`
as a single boundary and emitting no trailing empty line. -/
def pySplitlinesAux : Str → Str → List Str
  | [], acc => if acc.isEmpty then [] else [acc.reverse]
  | '\x0d' :: '\n' :: t, acc => acc.reverse :: pySplitlinesAux t []
  | c :: t, acc =>
    if lineBreakChar c then acc.reverse :: pySplitlinesAux t []
    else pySplitlinesAux t (c :: acc)

/-- Python `str.splitlines()`. -/
def pySplitlines (s : Str) : List Str := pySplitlinesAux s []

/-- Python `str.split(sep)` for a single-character separator:
`"".split(c) == [""]`, separators delimit possibly empty fields. -/
def pySplitChar (sep : Char) : Str → List Str
  | [] => [[]]
  | c :: t =>
    if c = sep then [] :: pySplitChar sep t
    else
      match pySplitChar sep t with
      | [] => [[c]]
      | l :: ls => (c :: l) :: ls

/-- Python `str.split(" -> ")`: split on the literal four-character arrow
separator, leftmost non-overlapping occurrences. -/
def splitArrow : Str → List Str
  | ' ' :: '-' :: '>' :: ' ' :: t => [] :: splitArrow t
  | c :: t =>
    match splitArrow t with
    | [] => [[c]]
    | l :: ls => (c :: l) :: ls
  | [] => [[]]

/-- Python `" -> " in s`: substring containment of the arrow separator. -/
def containsArrow : Str → Bool
  | ' ' :: '-' :: '>' :: ' ' :: _ => true
  | _ :: t => containsArrow t
  | [] => false

/-- Last element of a list with a default (Python `xs[-1]` on a non-empty
split result). -/
def lastD (l : List Str) (d : Str) : Str := l.reverse.headD d

/-- Python `str.find(needle)` restricted to a successful result:
index of the leftmost occurrence of `needle`. -/
def findSub (needle : Str) : Str → Option Nat
  | [] => if needle.isEmpty then some 0 else none
  | c :: t =>
    if needle.isPrefixOf (c :: t) then some 0
    else (findSub needle t).map (· + 1)

/-- Case-sensitive literal prefix removal: `some rest` when the pattern is
a prefix. -/
def dropLit : Str → Str → Option Str
  | [], s => some s
  | _ :: _, [] => none
  | p :: ps, c :: cs => if p = c then dropLit ps cs else none

/-- Case-insensitive literal prefix removal (models matching a literal
under the `re.IGNORECASE` flag). -/
def dropLitCI : Str → Str → Option Str
  | [], s => some s
  | _ :: _, [] => none
  | p :: ps, c :: cs => if p.toLower = c.toLower then dropLitCI ps cs else none

/-- Value of a non-empty decimal digit string (Python `int(...)` on the
digits captured by a regex group). -/
def natOfDigits (ds : Str) : Nat :=
  ds.foldl (fun a c => 10 * a + (c.toNat - '0'.toNat)) 0

/-- Result of `subprocess.run(..., capture_output=True, text=True)`. -/
structure CompletedProcess where
  returncode : Int
  stdout : Str
  stderr : Str

/-- The `_CONFLICT_TYPE_LABELS` dictionary of `src/backporter/main.py`
(lines 43-49): porcelain status codes recognised as genuine conflicts,
with their labels; any other code maps to `none`. -/
def conflictTypeLabel (code : Str) : Option Str :=
  if code = "UU".data then some "both modified".data
  else if code = "AA".data then some "both added".data
  else if code = "DD".data then some "both deleted".data
  else if code = "DU".data then some "modify/delete (deleted by us, changed by them)".data
  else if code = "UD".data then some "modify/delete (changed by us, deleted by them)".data
  else none

/-- Rename resolution from `get_conflicted_entries` (line 72 of
`src/backporter/main.py`): `rest.split(" -> ")[-1].strip()` when the
arrow occurs, otherwise `rest` unchanged. -/
def resolveRenamePath (rest : Str) : Str :=
  if containsArrow rest then pyStrip (lastD (splitArrow rest) []) else rest

/-- Body of the per-line loop of `get_conflicted_entries`
(lines 66-78 of `src/backporter/main.py`): skip lines shorter than four
characters, take the two-character code, strip the path from column three
onward, resolve renames, and keep the line only when the code is one of
the recognised conflict codes. -/
def classifyLine (line : Str) : Option (Str × Str) :=
  if line.length < 4 then none
  else
    match conflictTypeLabel (line.take 2) with
    | some label => some (resolveRenamePath (pyStrip (line.drop 3)), label)
    | none => none

/-- The function `get_conflicted_entries` of `src/backporter/main.py`
(lines 57-79), with the `git status --porcelain -u` invocation's result
passed in explicitly: a failing status query yields `[]`, otherwise the
stripped standard output is split into lines and classified in order. -/
def get_conflicted_entries (res : CompletedProcess) : List (Str × Str) :=
  if res.returncode ≠ 0 then []
  else (pySplitlines (pyStrip res.stdout)).filterMap classifyLine

/-- The function `get_conflicted_files` of `src/backporter/main.py`
(lines 52-54). -/
def get_conflicted_files (res : CompletedProcess) : List Str :=
  (get_conflicted_entries res).map Prod.fst

/-- Error message of `parse_target` (`src/backporter/main.py` lines
132 and 135). -/
def targetFormatMsg : Str := "Target must be in format owner/repo:branch".data

/-- Python `s.rsplit(sep, 1)` restricted to the case `sep ∈ s` (the only
case `parse_target` reaches it): the pieces before and after the last
occurrence of `sep`. -/
def rsplitLast (sep : Char) (s : Str) : Str × Str :=
  let rev := s.reverse
  let after := rev.takeWhile (fun c => c != sep)
  ((rev.drop (after.length + 1)).reverse, after.reverse)

/-- The function `parse_target` of `src/backporter/main.py` (lines
129-136): require a colon, split on the last colon, reject an empty side
before trimming, and return the whitespace-trimmed pieces. `ValueError`
is modelled as `Except.error`. -/
def parse_target (target : Str) : Except Str (Str × Str) :=
  if ':' ∈ target then
    let p := rsplitLast ':' target
    if p.1 = [] ∨ p.2 = [] then Except.error targetFormatMsg
    else Except.ok (pyStrip p.1, pyStrip p.2)
  else Except.error targetFormatMsg

/-- One attempted match of the pattern
`github\.com/([^/]+)/([^/]+)/pull/(\d+)` anchored at the start of `s`
(digits restricted to ASCII, the alphabet of the URLs involved). The
greedy `[^/]+` groups followed by the literal `/` admit no backtracking,
so each group is exactly the maximal run of non-slash characters.
Returns the `owner/repo` identifier and the numeric value on success. -/
def prMatchAt (s : Str) : Option (Str × Nat) :=
  match dropLit "github.com/".data s with
  | none => none
  | some s1 =>
    let owner := s1.takeWhile (fun c => c != '/')
    if owner.isEmpty then none
    else
      match s1.drop owner.length with
      | '/' :: s2 =>
        let repo := s2.takeWhile (fun c => c != '/')
        if repo.isEmpty then none
        else
          match s2.drop repo.length with
          | '/' :: s3 =>
            match dropLit "pull/".data s3 with
            | none => none
            | some s4 =>
              let digits := s4.takeWhile Char.isDigit
              if digits.isEmpty then none
              else some (owner ++ '/' :: repo, natOfDigits digits)
          | _ => none
      | _ => none

/-- Leftmost-match search for the pull-request URL pattern
(`re.search` semantics: try every start position from the left; the
attempt at the empty suffix always fails, as the pattern is non-empty). -/
def prSearch : Str → Option (Str × Nat)
  | [] => prMatchAt []
  | c :: t =>
    match prMatchAt (c :: t) with
    | some v => some v
    | none => prSearch t

/-- The function `parse_pr_url` of `src/backporter/main.py` (lines
139-146): search for the pull-request pattern and return
`(owner/repo, number)`, failing with the invalid-URL message otherwise. -/
def parse_pr_url (url : Str) : Except Str (Str × Nat) :=
  match prSearch url with
  | some v => Except.ok v
  | none => Except.error ("Invalid PR URL: ".data ++ url)

/-- Consumed length of the tail of the `_ENTRY_PATTERN` regex of
`src/backporter/changelog_extract.py` (lines 15-18):
the alternation `of the changes that goes (?:into|to) CHANGELOG\.md\):`,
matched case-insensitively, `into` tried before `to`. -/
def entryTail (s : Str) : Option Nat :=
  match dropLitCI "of the changes that goes into CHANGELOG.md):".data s with
  | some _ => some ("of the changes that goes into CHANGELOG.md):".data.length)
  | none =>
    match dropLitCI "of the changes that goes to CHANGELOG.md):".data s with
    | some _ => some ("of the changes that goes to CHANGELOG.md):".data.length)
    | none => none

/-- Backtracking over the second greedy `\s+` of the entry pattern:
whitespace counts from `k` down to `1`, each followed by the tail. -/
def entryFindJ3 : Nat → Str → Option Nat
  | 0, _ => none
  | k + 1, s2 =>
    match entryTail (s2.drop (k + 1)) with
    | some t => some (k + 1 + t)
    | none => entryFindJ3 k s2

/-- Backtracking over the lazy `.+?` of the entry pattern (under
`re.DOTALL` it may take any characters): lengths from `len2` upward,
bounded by the fuel, each followed by greedy `\s+` and the tail. -/
def entryFindLen2 : Nat → Nat → Str → Option Nat
  | 0, _, _ => none
  | fuel + 1, len2, s1 =>
    let s2 := s1.drop len2
    match entryFindJ3 ((s2.takeWhile pyIsSpace).length) s2 with
    | some r => some (len2 + r)
    | none => entryFindLen2 fuel (len2 + 1) s1

/-- Backtracking over the first greedy `\s+` of the entry pattern. -/
def entryFindJ1 : Nat → Str → Option Nat
  | 0, _ => none
  | k + 1, s0 =>
    let s1 := s0.drop (k + 1)
    match entryFindLen2 s1.length 1 s1 with
    | some r => some (k + 1 + r)
    | none => entryFindJ1 k s0

/-- One attempted match of `_ENTRY_PATTERN` anchored at the start of `s`:
the literal `Changelog entry \(a`, then `\s+.+?\s+` with Python
backtracking priorities, then the tail alternation. Returns the matched
length. -/
def entryMatchAt (s : Str) : Option Nat :=
  match dropLitCI "Changelog entry (a".data s with
  | none => none
  | some s0 =>
    match entryFindJ1 ((s0.takeWhile pyIsSpace).length) s0 with
    | some r => some ("Changelog entry (a".data.length + r)
    | none => none

/-- Leftmost search for `_ENTRY_PATTERN` (`re.search` semantics),
returning the match's start and end offsets. -/
def entrySearchAux : Str → Nat → Option (Nat × Nat)
  | s, pos =>
    match entryMatchAt s with
    | some len => some (pos, pos + len)
    | none =>
      match s with
      | [] => none
      | _ :: t => entrySearchAux t (pos + 1)

/-- The `_ENTRY_PATTERN.search(pr_body)` call of
`make_changelog_description`. -/
def entrySearch (body : Str) : Option (Nat × Nat) := entrySearchAux body 0

/-- One attempted match of `_CATEGORY_PATTERN`
(`^#{0,3}\s*Changelog category \(leave one\):`, `re.MULTILINE` and
`re.IGNORECASE`) at a line-start position: up to three hashes, optional
whitespace, then the literal. A run of four or more hashes admits no
match (every backtracking choice leaves a non-matching character). -/
def categoryMatchAt (s : Str) : Option Nat :=
  let hashes := s.takeWhile (fun c => c == '#')
  if 3 < hashes.length then none
  else
    let s1 := s.drop hashes.length
    let ws := s1.takeWhile pyIsSpace
    match dropLitCI "Changelog category (leave one):".data (s1.drop ws.length) with
    | some _ =>
      some (hashes.length + ws.length + "Changelog category (leave one):".data.length)
    | none => none

/-- Leftmost multiline search for `_CATEGORY_PATTERN`: the anchor `^`
holds at offset zero and immediately after each newline. -/
def categorySearchAux : Str → Nat → Bool → Option (Nat × Nat)
  | s, pos, atLineStart =>
    match (if atLineStart then categoryMatchAt s else none) with
    | some len => some (pos, pos + len)
    | none =>
      match s with
      | [] => none
      | c :: t => categorySearchAux t (pos + 1) (c = '\n')

/-- The `_CATEGORY_PATTERN.search(pr_body)` call of
`make_changelog_description`. -/
def categorySearch (body : Str) : Option (Nat × Nat) := categorySearchAux body 0 true

/-- Python slice `s[a:b]`. -/
def pySlice (s : Str) (a b : Nat) : Str := (s.take b).drop a

/-- The helper `_find_line_start` of both extractor files (lines 21-23):
`body.rfind("\n", 0, pos) + 1 if pos > 0 else 0`. -/
def find_line_start (body : Str) (pos : Nat) : Nat :=
  if pos = 0 then 0
  else
    let pre := (body.take pos).reverse
    match pre.findIdx? (fun c => c == '\n') with
    | some j => pre.length - j
    | none => 0

/-- The helper `_find_section_end` of both extractor files (lines 26-33):
minimum over the first occurrences of the three literal boundary
patterns `"\n### "`, `"\n## "`, `"\n\n---"` in `body[after_pos:]`,
defaulting to the end of the body. -/
def find_section_end (body : Str) (afterPos : Nat) : Nat :=
  let tail := body.drop afterPos
  ["\n### ".data, "\n## ".data, "\n\n---".data].foldl
    (fun e pat =>
      match findSub pat tail with
      | some i => min e (afterPos + i)
      | none => e)
    body.length

/-- The entry-section capture of `make_changelog_description`
(`src/backporter/changelog_extract.py` lines 68-72, identical in
`src/changelog_extract.py`): the stripped slice from the match's line
start to the section end. -/
def entryCaptured (body : Str) : Option Str :=
  match entrySearch body with
  | none => none
  | some (ms, me) =>
    some (pyStrip (pySlice body (find_line_start body ms) (find_section_end body me)))

/-- The entry reduction of `src/backporter/changelog_extract.py`
(lines 73-79): keep the header line and the first non-blank line after
it (stripped); when the section has no newline, or no non-blank line
follows, keep the section unchanged. -/
def entryReduceA (sec : Str) : Str :=
  match findSub "\n".data sec with
  | none => sec
  | some i =>
    let firstContent :=
      pyStrip (((pySplitChar '\n' (sec.drop (i + 1))).find?
        (fun ln => !(pyStrip ln).isEmpty)).getD [])
    if firstContent.isEmpty then sec else sec.take (i + 1) ++ firstContent

/-- The entry reduction of `src/changelog_extract.py` (lines 73-78):
truncate at the second newline (right-stripped); keep the section
unchanged when there are fewer than two newlines. -/
def entryReduceB (sec : Str) : Str :=
  match findSub "\n".data sec with
  | none => sec
  | some i =>
    match findSub "\n".data (sec.drop (i + 1)) with
    | none => sec
    | some j => pyRStrip (sec.take (i + 1 + j))

/-- The attribution step of both extractor files
(`src/backporter/changelog_extract.py` lines 80-86): when the section and
the suffix are both non-empty and the section has a header line, append
the suffix after the right-stripped content. -/
def applyEntrySuffix (suffix sec : Str) : Str :=
  if !sec.isEmpty && !suffix.isEmpty then
    match findSub "\n".data sec with
    | some i => sec.take (i + 1) ++ pyRStrip (sec.drop (i + 1)) ++ suffix
    | none => sec
  else sec

/-- The `entry_suffix` computation of both extractor files (lines 54-56):
the literal `" (<url> by @<author>)"` when both attribution values are
present and truthy, empty otherwise. -/
def entrySuffixOf (prUrl prAuthor : Option Str) : Str :=
  match prUrl, prAuthor with
  | some u, some a =>
    if !u.isEmpty && !a.isEmpty then " (".data ++ u ++ " by @".data ++ a ++ ")".data
    else []
  | _, _ => []

/-- The category block of `make_changelog_description` (lines 59-65 of
both extractor files): the stripped captured section, included only when
non-empty. -/
def renderCategory (body : Str) : Option Str :=
  match categorySearch body with
  | none => none
  | some (ms, me) =>
    let sec := pyStrip (pySlice body (find_line_start body ms) (find_section_end body me))
    if sec.isEmpty then none else some sec

/-- The entry block of `make_changelog_description` in
`src/backporter/changelog_extract.py` (lines 67-88): capture, reduce
(skip-blank-lines rule), apply the attribution suffix, include only when
non-empty. -/
def renderEntryA (body suffix : Str) : Option Str :=
  match entryCaptured body with
  | none => none
  | some sec0 =>
    let sec := applyEntrySuffix suffix (entryReduceA sec0)
    if sec.isEmpty then none else some sec

/-- The entry block of `make_changelog_description` in
`src/changelog_extract.py` (lines 66-87): same as `renderEntryA` but
with the take-second-line-verbatim reduction. -/
def renderEntryB (body suffix : Str) : Option Str :=
  match entryCaptured body with
  | none => none
  | some sec0 =>
    let sec := applyEntrySuffix suffix (entryReduceB sec0)
    if sec.isEmpty then none else some sec

/-- List of zero or one parts contributed by an optional section. -/
def optToList : Option Str → List Str
  | some s => [s]
  | none => []

/-- The function `make_changelog_description` of
`src/backporter/changelog_extract.py` (lines 36-90): empty for an absent
or empty body, otherwise the category part followed by the entry part,
joined by a blank line. -/
def make_changelog_description (prBody prUrl prAuthor : Option Str) : Str :=
  match prBody with
  | none => []
  | some body =>
    if body.isEmpty then []
    else
      let suffix := entrySuffixOf prUrl prAuthor
      List.intercalate "\n\n".data
        (optToList (renderCategory body) ++ optToList (renderEntryA body suffix))

/-- The function `make_changelog_description` of the near-duplicate
`src/changelog_extract.py` (lines 35-89), differing only in the entry
reduction rule. -/
def make_changelog_description_alt (prBody prUrl prAuthor : Option Str) : Str :=
  match prBody with
  | none => []
  | some body =>
    if body.isEmpty then []
    else
      let suffix := entrySuffixOf prUrl prAuthor
      List.intercalate "\n\n".data
        (optToList (renderCategory body) ++ optToList (renderEntryB body suffix))

/-- Terminal outcome of the primary workflow's replay handling
(`src/backporter/main.py` lines 365-399). `pushed` models reaching the
push stage after a successful cherry-pick; a failure there takes the
same `RuntimeError`-to-`sys.exit(1)` path as `fatalError`. -/
inductive RunOutcome where
  | pushed : RunOutcome
  | conflictsReported : List (Str × Str) → RunOutcome
  | fatalError : Str → RunOutcome
deriving DecidableEq

/-- Process exit status of each outcome: the conflict branch calls
`sys.exit(1)` (line 385); the fatal branch raises `RuntimeError`, caught
at line 397 and followed by `sys.exit(1)` (line 399); the success path
runs to the end of `main` (status 0). -/
def exitCode : RunOutcome → Nat
  | RunOutcome.pushed => 0
  | RunOutcome.conflictsReported _ => 1
  | RunOutcome.fatalError _ => 1

/-- Message of the `RuntimeError` raised when the cherry-pick failed with
no conflicted paths (`src/backporter/main.py` lines 386-388). -/
def cherryPickFailMsg (mergeSha : Str) : Str :=
  "Command failed: git cherry-pick -m 1 ".data ++ mergeSha ++ " --no-edit".data

/-- The cherry-pick result handling of `main` (lines 365-388): on a
non-zero cherry-pick status, classify the working copy's unmerged paths;
report them and exit when any exist, otherwise raise the fatal error.
The status-query result is passed in explicitly. -/
def replayOutcome (cpReturncode : Int) (mergeSha : Str) (status : CompletedProcess) :
    RunOutcome :=
  if cpReturncode ≠ 0 then
    let conflicted := get_conflicted_entries status
    if conflicted ≠ [] then RunOutcome.conflictsReported conflicted
    else RunOutcome.fatalError (cherryPickFailMsg mergeSha)
  else RunOutcome.pushed

/-- Working-copy acquisition options of the primary workflow
(`-C`, `--repo-dir` and `--work-dir`, lines 264-273 of
`src/backporter/main.py`). -/
structure BackportArgs where
  repoDir : Option Str
  workDir : Option Str

/-- The `cleanup_work_dir` flag of `main` (lines 264-273): false when an
existing repository directory is supplied, otherwise true exactly when no
work directory was pinned. -/
def cleanup_work_dir (args : BackportArgs) : Bool :=
  match args.repoDir with
  | some _ => false
  | none => args.workDir.isNone

/-- The `finally` block of `main` (lines 400-402): `shutil.rmtree` of the
work directory runs on every exit path, including the `sys.exit(1)` of
the conflict branch, exactly when `cleanup_work_dir` is set. The conflict
branch itself (lines 369-385) runs no git command and deletes nothing. -/
def workingCopyRemovedOnExit (args : BackportArgs) : Bool :=
  cleanup_work_dir args

/-- Git commands issued by the Resume (`--conflicts-resolved`) entry
point of `main` (lines 205-232). -/
inductive GitCmd where
  | revParseVerifyCherryPickHead : GitCmd
  | addAll : GitCmd
  | cherryPickContinue : GitCmd
  | branchShowCurrent : GitCmd
  | pushOrigin : Str → GitCmd
deriving DecidableEq

/-- Whether a command mutates the working copy or publishes state
(staging, continuing the replay, pushing); the `CHERRY_PICK_HEAD` probe
and the branch query are read-only. -/
def mutatesState : GitCmd → Bool
  | GitCmd.addAll => true
  | GitCmd.cherryPickContinue => true
  | GitCmd.pushOrigin _ => true
  | GitCmd.revParseVerifyCherryPickHead => false
  | GitCmd.branchShowCurrent => false

/-- Externally observable state the Resume entry point consults: whether
`repo_dir/.git` exists, whether `git rev-parse -q --verify
CHERRY_PICK_HEAD` succeeds (`is_cherry_pick_in_progress`, lines 97-103),
and the results of the subsequent commands. -/
structure ResumeEnv where
  isGitRepo : Bool
  cherryPickInProgress : Bool
  addSucceeds : Bool
  continueSucceeds : Bool
  currentBranch : Option Str
  pushSucceeds : Bool

/-- Terminal result of the Resume entry point. -/
inductive ResumeOutcome where
  | notARepo : ResumeOutcome
  | noReplayInProgress : ResumeOutcome
  | addFailed : ResumeOutcome
  | continueFailed : ResumeOutcome
  | branchQueryFailed : ResumeOutcome
  | pushFailed : ResumeOutcome
  | done : ResumeOutcome
deriving DecidableEq

/-- The `--conflicts-resolved` branch of `main` (lines 205-232), from the
repository check onward (arguments already validated and parsed):
the trace of git commands issued, the outcome, and the exit status.
Failures of the checked `run` calls and of `get_current_branch` raise
uncaught exceptions, which terminate the interpreter with status 1. -/
def resumeWorkflow (env : ResumeEnv) : List GitCmd × ResumeOutcome × Nat :=
  if !env.isGitRepo then ([], ResumeOutcome.notARepo, 1)
  else if !env.cherryPickInProgress then
    ([GitCmd.revParseVerifyCherryPickHead], ResumeOutcome.noReplayInProgress, 1)
  else if !env.addSucceeds then
    ([GitCmd.revParseVerifyCherryPickHead, GitCmd.addAll], ResumeOutcome.addFailed, 1)
  else if !env.continueSucceeds then
    ([GitCmd.revParseVerifyCherryPickHead, GitCmd.addAll, GitCmd.cherryPickContinue],
      ResumeOutcome.continueFailed, 1)
  else
    match env.currentBranch with
    | none =>
      ([GitCmd.revParseVerifyCherryPickHead, GitCmd.addAll, GitCmd.cherryPickContinue,
        GitCmd.branchShowCurrent], ResumeOutcome.branchQueryFailed, 1)
    | some br =>
      if !env.pushSucceeds then
        ([GitCmd.revParseVerifyCherryPickHead, GitCmd.addAll, GitCmd.cherryPickContinue,
          GitCmd.branchShowCurrent, GitCmd.pushOrigin br], ResumeOutcome.pushFailed, 1)
      else
        ([GitCmd.revParseVerifyCherryPickHead, GitCmd.addAll, GitCmd.cherryPickContinue,
          GitCmd.branchShowCurrent, GitCmd.pushOrigin br], ResumeOutcome.done, 0)

theorem filterMap_congr_mem {α β : Type} (f g : α → Option β) :
    ∀ l : List α, (∀ x ∈ l, f x = g x) → l.filterMap f = l.filterMap g
  | [], _ => rfl
  | x :: xs, h => by
    simp only [List.filterMap_cons]
    rw [h x (List.mem_cons_self x xs),
      filterMap_congr_mem f g xs (fun y hy => h y (List.mem_cons_of_mem x hy))]

theorem takeWhile_append_stop {α : Type} (p : α → Bool) (y : α) (l2 : List α) :
    ∀ l1 : List α, (∀ x ∈ l1, p x = true) → p y = false →
      (l1 ++ y :: l2).takeWhile p = l1
  | [], _, hy => by simp [List.takeWhile_cons, hy]
  | x :: xs, h, hy => by
    have hx : p x = true := h x (List.mem_cons_self x xs)
    simp only [List.cons_append, List.takeWhile_cons, hx, if_true]
    rw [takeWhile_append_stop p y l2 xs (fun z hz => h z (List.mem_cons_of_mem x hz)) hy]

theorem takeWhile_all {α : Type} (p : α → Bool) :
    ∀ l : List α, (∀ x ∈ l, p x = true) → l.takeWhile p = l
  | [], _ => rfl
  | x :: xs, h => by
    have hx : p x = true := h x (List.mem_cons_self x xs)
    simp only [List.takeWhile_cons, hx, if_true]
    rw [takeWhile_all p xs (fun z hz => h z (List.mem_cons_of_mem x hz))]

theorem dropLit_append : ∀ p r : Str, dropLit p (p ++ r) = some r
  | [], _ => rfl
  | c :: cs, r => by
    simp only [List.cons_append, dropLit, if_pos rfl]
    exact dropLit_append cs r

theorem isEmpty_false_of_ne_nil {α : Type} {l : List α} (h : l ≠ []) :
    l.isEmpty = false := by
  cases l with
  | nil => exact absurd rfl h
  | cons a t => rfl

theorem take_succ_ne_nil {α : Type} {l : List α} (i : Nat) (h : l ≠ []) :
    l.take (i + 1) ≠ [] := by
  cases l with
  | nil => exact absurd rfl h
  | cons a t => simp [List.take_cons]

theorem classifyLine_ge4 (l : Str) (h : 4 ≤ l.length) :
    classifyLine l =
      match conflictTypeLabel (l.take 2) with
      | some label => some (resolveRenamePath (pyStrip (l.drop 3)), label)
      | none => none := by
  unfold classifyLine
  rw [if_neg (by omega)]

/-- C3: on a porcelain status output whose lines all carry a path
(length at least four), the classifier returns exactly the entries whose
two-character code is one of the five recognised conflict codes, each
paired with its documented label, in line order, with rename notation
resolved to the new path; the five codes map to their labels and `UA`,
`AU` are excluded. -/
theorem conflict_classifier_characterization (out err : Str)
    (h : ∀ l ∈ pySplitlines (pyStrip out), 4 ≤ l.length) :
    get_conflicted_entries ⟨0, out, err⟩
      = (pySplitlines (pyStrip out)).filterMap (fun line =>
          match conflictTypeLabel (line.take 2) with
          | some label => some (resolveRenamePath (pyStrip (line.drop 3)), label)
          | none => none)
    ∧ conflictTypeLabel "UU".data = some "both modified".data
    ∧ conflictTypeLabel "AA".data = some "both added".data
    ∧ conflictTypeLabel "DD".data = some "both deleted".data
    ∧ conflictTypeLabel "DU".data = some "modify/delete (deleted by us, changed by them)".data
    ∧ conflictTypeLabel "UD".data = some "modify/delete (changed by us, deleted by them)".data
    ∧ conflictTypeLabel "UA".data = none
    ∧ conflictTypeLabel "AU".data = none := by
  refine ⟨?_, rfl, rfl, rfl, rfl, rfl, rfl, rfl⟩
  have h0 : get_conflicted_entries ⟨0, out, err⟩
      = (pySplitlines (pyStrip out)).filterMap classifyLine := by
    simp [get_conflicted_entries]
  rw [h0]
  apply filterMap_congr_mem
  intro x hx
  exact classifyLine_ge4 x (h x hx)

/-- Witness for C3: a three-line status output with a `UU` line, an
excluded `AU` line and a `UD` rename. -/
theorem conflict_classifier_characterization_witness :
    get_conflicted_entries ⟨0, "UU a.c\nAU b.c\nUD old.c -> new.c".data, []⟩
      = [("a.c".data, "both modified".data),
         ("new.c".data, "modify/delete (changed by us, deleted by them)".data)] :=
  ((conflict_classifier_characterization
      "UU a.c\nAU b.c\nUD old.c -> new.c".data [] (by decide)).1).trans (by decide)

theorem rsplitLast_eq (repo branch : Str) (hnc : ':' ∉ branch) :
    rsplitLast ':' (repo ++ ':' :: branch) = (repo, branch) := by
  unfold rsplitLast
  have hrev : (repo ++ ':' :: branch).reverse
      = branch.reverse ++ ':' :: repo.reverse := by
    rw [List.reverse_append, List.reverse_cons, List.append_assoc]
    simp
  have hall : ∀ x ∈ branch.reverse, (x != ':') = true := by
    intro x hx
    have hxb : x ∈ branch := List.mem_reverse.mp hx
    have hne : x ≠ ':' := fun he => hnc (he ▸ hxb)
    simpa [bne_iff_ne] using hne
  have htw : (branch.reverse ++ ':' :: repo.reverse).takeWhile (fun c => c != ':')
      = branch.reverse :=
    takeWhile_append_stop _ ':' repo.reverse branch.reverse hall (by decide)
  simp only [hrev, htw, List.length_reverse, Prod.mk.injEq]
  constructor
  · have hassoc : branch.reverse ++ ':' :: repo.reverse
        = (branch.reverse ++ [':']) ++ repo.reverse := by
      rw [List.append_assoc]; rfl
    rw [hassoc]
    have hlen : (branch.reverse ++ [':']).length = branch.length + 1 := by
      simp
    rw [← hlen, List.drop_left, List.reverse_reverse]
  · exact List.reverse_reverse branch

/-- C6 counterexample: the non-emptiness check of `parse_target` runs
before whitespace trimming, so `"a: "` parses successfully yet yields an
empty branch component, contradicting the claim that both returned parts
are non-empty. -/
theorem parse_target_empty_branch_after_trim :
    parse_target "a: ".data = Except.ok ("a".data, []) := rfl

/-- C6 (amended): `parse_target` splits on the last `:` and fails exactly
when there is no `:` or either side of the last `:` is empty before
trimming; the returned components are whitespace-trimmed and may be empty
when a side is whitespace-only; on `owner/repo:branch` forms it returns
the trimmed pair. -/
theorem parse_target_amended (s repo branch : Str)
    (hs : s = repo ++ ':' :: branch) (hnc : ':' ∉ branch) :
    (parse_target s = Except.error targetFormatMsg ↔ repo = [] ∨ branch = [])
    ∧ (repo ≠ [] → branch ≠ [] →
        parse_target s = Except.ok (pyStrip repo, pyStrip branch))
    ∧ (∀ t : Str, ':' ∉ t → parse_target t = Except.error targetFormatMsg) := by
  subst hs
  have hmem : ':' ∈ repo ++ ':' :: branch :=
    List.mem_append_right _ (List.mem_cons_self _ _)
  have hpt : parse_target (repo ++ ':' :: branch)
      = if repo = [] ∨ branch = [] then Except.error targetFormatMsg
        else Except.ok (pyStrip repo, pyStrip branch) := by
    simp only [parse_target, if_pos hmem, rsplitLast_eq repo branch hnc]
  refine ⟨⟨?_, ?_⟩, ?_, ?_⟩
  · intro he
    by_contra hne
    push_neg at hne
    rw [hpt, if_neg (not_or.mpr ⟨hne.1, hne.2⟩)] at he
    exact Except.noConfusion he
  · intro hor
    rw [hpt, if_pos hor]
  · intro h1 h2
    rw [hpt, if_neg (not_or.mpr ⟨h1, h2⟩)]
  · intro t ht
    unfold parse_target
    rw [if_neg ht]

/-- Witness for C6 (amended): the canonical `owner/repo:branch` form
round-trips. -/
theorem parse_target_amended_witness :
    parse_target "owner/repo:branch".data
      = Except.ok ("owner/repo".data, "branch".data) :=
  (parse_target_amended "owner/repo:branch".data "owner/repo".data "branch".data
      (by decide) (by decide)).2.1 (by decide) (by decide)

/-- C7 counterexample: `parse_pr_url` performs no positivity check on the
captured digits, so a pull request number of zero is accepted, against
the claim's `number > 0`. -/
theorem parse_pr_url_accepts_zero :
    parse_pr_url "https://github.com/a/b/pull/0".data = Except.ok ("a/b".data, 0)
    ∧ ¬ (0 : Nat) > 0 := ⟨rfl, by decide⟩

theorem takeWhile_append_head_stop {α : Type} (p : α → Bool) (l2 l1 : List α)
    (h1 : ∀ x ∈ l1, p x = true) (h2 : ∀ c, l2.head? = some c → p c = false) :
    (l1 ++ l2).takeWhile p = l1 := by
  cases l2 with
  | nil => rw [List.append_nil]; exact takeWhile_all p l1 h1
  | cons y t => exact takeWhile_append_stop p y t l1 h1 (h2 y rfl)

theorem prMatchAt_canonical (owner repo digits suf : Str)
    (ho : owner ≠ []) (hr : repo ≠ []) (ho2 : '/' ∉ owner) (hr2 : '/' ∉ repo)
    (hd : digits ≠ []) (hdd : ∀ c ∈ digits, c.isDigit = true)
    (hsuf : ∀ c, suf.head? = some c → c.isDigit = false) :
    prMatchAt ("github.com/".data
        ++ (owner ++ '/' :: (repo ++ '/' :: ("pull/".data ++ (digits ++ suf)))))
      = some (owner ++ '/' :: repo, natOfDigits digits) := by
  have hsl : ∀ (l : Str), '/' ∉ l → ∀ x ∈ l, (x != '/') = true := by
    intro l hl x hx
    have hne : x ≠ '/' := fun he => hl (he ▸ hx)
    simpa [bne_iff_ne] using hne
  have htw1 : (owner ++ '/' :: (repo ++ '/' :: ("pull/".data ++ (digits ++ suf)))).takeWhile
      (fun c => c != '/') = owner :=
    takeWhile_append_stop _ '/' _ owner (hsl owner ho2) (by decide)
  have htw2 : (repo ++ '/' :: ("pull/".data ++ (digits ++ suf))).takeWhile
      (fun c => c != '/') = repo :=
    takeWhile_append_stop _ '/' _ repo (hsl repo hr2) (by decide)
  have htwd : (digits ++ suf).takeWhile Char.isDigit = digits :=
    takeWhile_append_head_stop _ suf digits hdd hsuf
  unfold prMatchAt
  rw [dropLit_append]
  simp only [htw1, isEmpty_false_of_ne_nil ho, List.drop_left]
  simp only [htw2, isEmpty_false_of_ne_nil hr, List.drop_left]
  rw [show ("pull/".data ++ (digits ++ suf) : Str) = "pull/".data ++ (digits ++ suf) from rfl,
    dropLit_append]
  simp only [htwd, isEmpty_false_of_ne_nil hd]
  simp

theorem prSearch_of_matchAt {s : Str} {v : Str × Nat} (h : prMatchAt s = some v) :
    prSearch s = some v := by
  cases s with
  | nil => simp only [prSearch, h]
  | cons c t => simp only [prSearch, h]

theorem dropLit_some : ∀ p s r : Str, dropLit p s = some r → s = p ++ r
  | [], s, r, h => by
    simp only [dropLit, Option.some.injEq] at h
    simp [h]
  | p :: ps, [], r, h => by simp [dropLit] at h
  | p :: ps, c :: cs, r, h => by
    simp only [dropLit] at h
    by_cases hpc : p = c
    · rw [if_pos hpc] at h
      have hrec := dropLit_some ps cs r h
      subst hpc
      rw [List.cons_append, ← hrec]
    · rw [if_neg hpc] at h
      exact Option.noConfusion h

theorem isPrefixOf_append_self : ∀ p r : Str, p.isPrefixOf (p ++ r) = true
  | [], _ => by simp [List.isPrefixOf]
  | c :: cs, r => by
    simp only [List.cons_append, List.isPrefixOf]
    simp [isPrefixOf_append_self cs r]

theorem isPrefixOf_of_prMatchAt {s : Str} {v : Str × Nat}
    (h : prMatchAt s = some v) : "github.com/".data.isPrefixOf s = true := by
  unfold prMatchAt at h
  cases hdl : dropLit "github.com/".data s with
  | none => rw [hdl] at h; simp at h
  | some s1 =>
    rw [dropLit_some _ _ _ hdl]
    exact isPrefixOf_append_self _ _

theorem prSearch_of_first (pre rest : Str) (v : Str × Nat)
    (hm : prMatchAt rest = some v)
    (hfail : ∀ n, n < pre.length → prMatchAt ((pre ++ rest).drop n) = none) :
    prSearch (pre ++ rest) = some v := by
  induction pre with
  | nil => rw [List.nil_append]; exact prSearch_of_matchAt hm
  | cons c p ih =>
    have h0 : prMatchAt (c :: (p ++ rest)) = none := by
      have h00 := hfail 0 (by simp)
      simpa using h00
    rw [List.cons_append]
    show prSearch (c :: (p ++ rest)) = some v
    simp only [prSearch, h0]
    exact ih (fun n hn => by
      have hh := hfail (n + 1) (by simp only [List.length_cons]; omega)
      simpa using hh)

/-- C7 (amended): for every URL containing
`github.com/owner/repo/pull/digits` (slash-free non-empty owner and
repo, non-empty ASCII digits) — with an arbitrary scheme or host prefix
before the leftmost `github.com/` occurrence and an arbitrary suffix not
extending the digits — `parse_pr_url` returns `(owner/repo, n)` where
`n` is the numeric value of the digits, a nonnegative integer with no
positivity check; and any string the pattern search rejects fails with
the invalid-URL error. -/
theorem parse_pr_url_amended (url pre owner repo digits suf : Str)
    (hurl : url = pre ++ ("github.com/".data
        ++ (owner ++ '/' :: (repo ++ '/' :: ("pull/".data ++ (digits ++ suf))))))
    (hpre : ∀ n, n < pre.length → "github.com/".data.isPrefixOf (url.drop n) = false)
    (ho : owner ≠ []) (hr : repo ≠ []) (ho2 : '/' ∉ owner) (hr2 : '/' ∉ repo)
    (hd : digits ≠ []) (hdd : ∀ c ∈ digits, c.isDigit = true)
    (hsuf : ∀ c, suf.head? = some c → c.isDigit = false) :
    parse_pr_url url = Except.ok (owner ++ '/' :: repo, natOfDigits digits)
    ∧ (∀ t : Str, prSearch t = none →
        parse_pr_url t = Except.error ("Invalid PR URL: ".data ++ t)) := by
  subst hurl
  constructor
  · have hm := prMatchAt_canonical owner repo digits suf ho hr ho2 hr2 hd hdd hsuf
    have hfail : ∀ n, n < pre.length →
        prMatchAt ((pre ++ ("github.com/".data
          ++ (owner ++ '/' :: (repo ++ '/' :: ("pull/".data ++ (digits ++ suf)))))).drop n)
          = none := by
      intro n hn
      cases hmn : prMatchAt ((pre ++ ("github.com/".data
          ++ (owner ++ '/' :: (repo ++ '/' :: ("pull/".data ++ (digits ++ suf)))))).drop n) with
      | none => rfl
      | some w =>
        have hp := isPrefixOf_of_prMatchAt hmn
        rw [hpre n hn] at hp
        exact Bool.noConfusion hp
    unfold parse_pr_url
    rw [prSearch_of_first pre _ _ hm hfail]
  · intro t ht
    unfold parse_pr_url
    rw [ht]

/-- Witness for C7 (amended): a scheme-prefixed pull-request URL with a
trailing path segment parses to its repository identifier and number. -/
theorem parse_pr_url_amended_witness :
    parse_pr_url "https://github.com/octo/hello/pull/42/files".data
      = Except.ok ("octo/hello".data, 42) :=
  ((parse_pr_url_amended "https://github.com/octo/hello/pull/42/files".data
      "https://".data "octo".data "hello".data "42".data "/files".data
      (by decide) (by decide) (by decide) (by decide) (by decide) (by decide)
      (by decide) (by decide) (by decide)).1).trans (by rfl)

/-- C1 counterexample: a replay failure with conflicts and a replay
failure with zero conflicts produce the two different outcome kinds, yet
their process exit statuses are equal (both `1`), so the conflict exit
status is not distinct from a hard failure's status. -/
theorem conflict_exit_status_not_distinct :
    replayOutcome 1 "abc".data ⟨0, "UU f.c".data, []⟩
      = RunOutcome.conflictsReported [("f.c".data, "both modified".data)]
    ∧ replayOutcome 1 "abc".data ⟨0, [], []⟩
      = RunOutcome.fatalError (cherryPickFailMsg "abc".data)
    ∧ exitCode (replayOutcome 1 "abc".data ⟨0, "UU f.c".data, []⟩)
      = exitCode (replayOutcome 1 "abc".data ⟨0, [], []⟩) := by
  refine ⟨?_, ?_, ?_⟩ <;> decide

/-- C1 (amended): when the replay fails, the outcome is dichotomous —
with one or more conflicted paths each is reported with its category and
the process exits non-zero (status `1`, the same numeric status as a
hard failure; the cases are distinguished by the report, not the
status); with zero conflicted paths the failure is fatal and
non-recoverable. -/
theorem replay_failure_dichotomy (rc : Int) (sha : Str) (status : CompletedProcess)
    (h : rc ≠ 0) :
    (get_conflicted_entries status ≠ [] →
        replayOutcome rc sha status
          = RunOutcome.conflictsReported (get_conflicted_entries status)
        ∧ exitCode (replayOutcome rc sha status) = 1)
    ∧ (get_conflicted_entries status = [] →
        replayOutcome rc sha status = RunOutcome.fatalError (cherryPickFailMsg sha)
        ∧ exitCode (replayOutcome rc sha status) = 1) := by
  constructor
  · intro hc
    have ho : replayOutcome rc sha status
        = RunOutcome.conflictsReported (get_conflicted_entries status) := by
      simp only [replayOutcome, if_pos h, if_pos hc]
    exact ⟨ho, by rw [ho]; rfl⟩
  · intro hc
    have ho : replayOutcome rc sha status
        = RunOutcome.fatalError (cherryPickFailMsg sha) := by
      simp only [replayOutcome, if_pos h, if_neg (not_not_intro hc)]
    exact ⟨ho, by rw [ho]; rfl⟩

/-- Witness for C1 (amended): a concrete conflicted replay failure is
reported and exits with status one. -/
theorem replay_failure_dichotomy_witness :
    replayOutcome 1 "abc".data ⟨0, "UU file.c".data, []⟩
      = RunOutcome.conflictsReported (get_conflicted_entries ⟨0, "UU file.c".data, []⟩)
    ∧ exitCode (replayOutcome 1 "abc".data ⟨0, "UU file.c".data, []⟩) = 1 :=
  (replay_failure_dichotomy 1 "abc".data ⟨0, "UU file.c".data, []⟩ (by decide)).1
    (by decide)

/-- C2 counterexample: a run that used an ephemeral clone (no repository
directory and no pinned work directory) and ended in the
conflicts-reported outcome still removes the working copy in the
`finally` cleanup, so the conflict state is not preserved for every kind
of working copy. -/
theorem ephemeral_clone_removed_on_conflict_exit :
    replayOutcome 1 "abc".data ⟨0, "UU f.c".data, []⟩
      = RunOutcome.conflictsReported [("f.c".data, "both modified".data)]
    ∧ workingCopyRemovedOnExit ⟨none, none⟩ = true := ⟨by decide, rfl⟩

/-- C2 (amended): when the replay fails with conflicts, the conflict
state is reported and the working copy is left in place exactly when the
workflow used a caller-supplied repository directory or a pinned work
directory; an ephemeral temporary clone is removed by the unconditional
exit cleanup. -/
theorem conflict_state_preserved_for_supplied_dirs (args : BackportArgs) (rc : Int)
    (sha : Str) (status : CompletedProcess)
    (hdir : args.repoDir.isSome ∨ args.workDir.isSome)
    (hrc : rc ≠ 0) (hc : get_conflicted_entries status ≠ []) :
    replayOutcome rc sha status
      = RunOutcome.conflictsReported (get_conflicted_entries status)
    ∧ workingCopyRemovedOnExit args = false := by
  constructor
  · simp only [replayOutcome, if_pos hrc, if_pos hc]
  · unfold workingCopyRemovedOnExit cleanup_work_dir
    cases hd : args.repoDir with
    | some d => rfl
    | none =>
      cases hw : args.workDir with
      | some w => simp [Option.isNone]
      | none =>
        rw [hd, hw] at hdir
        simp at hdir

/-- Witness for C2 (amended): with a supplied repository directory, the
conflicted replay leaves the working copy in place. -/
theorem conflict_state_preserved_for_supplied_dirs_witness :
    replayOutcome 1 "abc".data ⟨0, "UU d.c".data, []⟩
      = RunOutcome.conflictsReported (get_conflicted_entries ⟨0, "UU d.c".data, []⟩)
    ∧ workingCopyRemovedOnExit ⟨some "/repo".data, none⟩ = false :=
  conflict_state_preserved_for_supplied_dirs ⟨some "/repo".data, none⟩ 1 "abc".data
    ⟨0, "UU d.c".data, []⟩ (Or.inl rfl) (by decide) (by decide)

/-- C5: invoking the Resume entry point against a working copy with no
pending cherry-pick fails with the no-replay-in-progress outcome, exits
non-zero, and issues no staging, continue, or push command — only the
read-only `CHERRY_PICK_HEAD` probe runs before the check. -/
theorem resume_without_pending_replay (env : ResumeEnv)
    (hrepo : env.isGitRepo = true) (hnone : env.cherryPickInProgress = false) :
    resumeWorkflow env
      = ([GitCmd.revParseVerifyCherryPickHead], ResumeOutcome.noReplayInProgress, 1)
    ∧ (∀ c ∈ (resumeWorkflow env).1, mutatesState c = false)
    ∧ (resumeWorkflow env).2.2 ≠ 0 := by
  have h : resumeWorkflow env
      = ([GitCmd.revParseVerifyCherryPickHead], ResumeOutcome.noReplayInProgress, 1) := by
    simp only [resumeWorkflow, hrepo, hnone]
    rfl
  refine ⟨h, ?_, ?_⟩
  · rw [h]
    intro c hc
    simp only [List.mem_singleton] at hc
    subst hc
    rfl
  · rw [h]
    decide

/-- Witness for C5: a concrete environment with a valid repository and no
pending cherry-pick. -/
theorem resume_without_pending_replay_witness :
    resumeWorkflow ⟨true, false, true, true, some "b".data, true⟩
      = ([GitCmd.revParseVerifyCherryPickHead], ResumeOutcome.noReplayInProgress, 1)
    ∧ (∀ c ∈ (resumeWorkflow ⟨true, false, true, true, some "b".data, true⟩).1,
        mutatesState c = false)
    ∧ (resumeWorkflow ⟨true, false, true, true, some "b".data, true⟩).2.2 ≠ 0 :=
  resume_without_pending_replay ⟨true, false, true, true, some "b".data, true⟩ rfl rfl

/-- C10: when the porcelain status query itself exits non-zero,
`get_conflicted_entries` returns the empty list — indistinguishable at
the classifier's interface from a conflict-free state — and a failing
replay in that situation is escalated to the fatal zero-conflicts path. -/
theorem status_query_failure_masks_conflicts (res : CompletedProcess)
    (h : res.returncode ≠ 0) :
    get_conflicted_entries res = []
    ∧ ∀ (rc : Int) (sha : Str), rc ≠ 0 →
        replayOutcome rc sha res = RunOutcome.fatalError (cherryPickFailMsg sha) := by
  have he : get_conflicted_entries res = [] := by
    unfold get_conflicted_entries
    rw [if_pos h]
  refine ⟨he, ?_⟩
  intro rc sha hrc
  simp only [replayOutcome, if_pos hrc, if_neg (not_not_intro he)]

/-- Witness for C10: a failed status query with conflict-looking output
still classifies as conflict-free and the replay failure is fatal. -/
theorem status_query_failure_masks_conflicts_witness :
    get_conflicted_entries ⟨128, "UU f.c".data, []⟩ = []
    ∧ replayOutcome 1 "abc".data ⟨128, "UU f.c".data, []⟩
        = RunOutcome.fatalError (cherryPickFailMsg "abc".data) :=
  ⟨(status_query_failure_masks_conflicts ⟨128, "UU f.c".data, []⟩ (by decide)).1,
   (status_query_failure_masks_conflicts ⟨128, "UU f.c".data, []⟩ (by decide)).2
     1 "abc".data (by decide)⟩

/-- Example pull-request body whose entry section has blank lines between
the header and the first content line. -/
def exBodyBlanks : Str :=
  "### Changelog entry (a short description of the changes that goes into CHANGELOG.md):\n\nFixed it\nMore\n".data

/-- The entry section captured from `exBodyBlanks`. -/
def exSecBlanks : Str :=
  "### Changelog entry (a short description of the changes that goes into CHANGELOG.md):\n\nFixed it\nMore".data

/-- Example pull-request body whose entry section has a content line
directly after the header. -/
def exBodyContent : Str :=
  "### Changelog entry (a short description of the changes that goes into CHANGELOG.md):\nFixed the thing\n".data

/-- The entry section captured from `exBodyContent`. -/
def exSecContent : Str :=
  "### Changelog entry (a short description of the changes that goes into CHANGELOG.md):\nFixed the thing".data

/-- Example pull-request body with a blank line immediately after the
entry header, on which the two extractor implementations disagree. -/
def exBodyBlankLine : Str :=
  "### Changelog entry (a short description of the changes that goes into CHANGELOG.md):\n\nFixed the bug\n".data

/-- C4: for a body in which an entry section is located, the extractor
reduces the captured section to its header line plus the first non-blank
line that follows (whitespace-trimmed), skipping blank lines; when no
newline or no non-blank line follows the header, the section is kept as
captured. -/
theorem entry_section_reduction (body sec : Str) (h : entryCaptured body = some sec) :
    (∀ i, findSub "\n".data sec = some i →
      (∀ c, (pySplitChar '\n' (sec.drop (i + 1))).find?
            (fun ln => !(pyStrip ln).isEmpty) = some c →
          entryReduceA sec = sec.take (i + 1) ++ pyStrip c)
      ∧ ((pySplitChar '\n' (sec.drop (i + 1))).find?
            (fun ln => !(pyStrip ln).isEmpty) = none →
          entryReduceA sec = sec))
    ∧ (findSub "\n".data sec = none → entryReduceA sec = sec) := by
  refine ⟨?_, ?_⟩
  · intro i hi
    refine ⟨?_, ?_⟩
    · intro c hc
      unfold entryReduceA
      rw [hi]
      have hb := List.find?_some hc
      simp only [Bool.not_eq_true'] at hb
      simp [hc, hb]
    · intro hc
      unfold entryReduceA
      rw [hi]
      simp [hc, show pyStrip ([] : Str) = [] from rfl]
  · intro hn
    unfold entryReduceA
    rw [hn]

/-- Witness for C4: with two blank lines after the header, the reduction
keeps the header line and the trimmed line `Fixed it`, dropping the
blanks and the later `More` line. -/
theorem entry_section_reduction_witness :
    entryReduceA exSecBlanks = exSecBlanks.take 86 ++ pyStrip "Fixed it".data :=
  ((entry_section_reduction exBodyBlanks exSecBlanks (by decide)).1 85
    (by decide)).1 "Fixed it".data (by decide)

/-- C8: when both attribution values are supplied and the reduced entry
section has a content line, the rendered entry is the header line, the
right-stripped content line, and exactly the literal suffix
`" (<url> by @<author>)"`; with the empty suffix (either attribution
value absent) the section is rendered unchanged. -/
theorem entry_attribution_suffix (body u a sec : Str) (i : Nat)
    (h : entryCaptured body = some sec) (hu : u ≠ []) (ha : a ≠ [])
    (hi : findSub "\n".data (entryReduceA sec) = some i) :
    renderEntryA body (entrySuffixOf (some u) (some a))
      = some ((entryReduceA sec).take (i + 1)
          ++ pyRStrip ((entryReduceA sec).drop (i + 1))
          ++ (" (".data ++ u ++ " by @".data ++ a ++ ")".data))
    ∧ (∀ v : Option Str, entrySuffixOf none v = [] ∧ entrySuffixOf v none = [])
    ∧ renderEntryA body [] = some (entryReduceA sec) := by
  have hsuf : entrySuffixOf (some u) (some a)
      = " (".data ++ u ++ " by @".data ++ a ++ ")".data := by
    simp [entrySuffixOf, isEmpty_false_of_ne_nil hu, isEmpty_false_of_ne_nil ha]
  have hrne : entryReduceA sec ≠ [] := by
    intro he
    rw [he] at hi
    simp [findSub] at hi
  have hres : (entryReduceA sec).take (i + 1)
      ++ pyRStrip ((entryReduceA sec).drop (i + 1))
      ++ (" (".data ++ u ++ " by @".data ++ a ++ ")".data) ≠ [] := by
    intro he
    exact take_succ_ne_nil i hrne (List.append_eq_nil.mp (List.append_eq_nil.mp he).1).1
  have hcond : (!(entryReduceA sec).isEmpty
      && !((" (".data ++ u ++ " by @".data ++ a ++ ")".data : Str).isEmpty)) = true := by
    rw [isEmpty_false_of_ne_nil hrne]
    rfl
  have happ : applyEntrySuffix (entrySuffixOf (some u) (some a)) (entryReduceA sec)
      = (entryReduceA sec).take (i + 1) ++ pyRStrip ((entryReduceA sec).drop (i + 1))
        ++ (" (".data ++ u ++ " by @".data ++ a ++ ")".data) := by
    rw [hsuf]
    unfold applyEntrySuffix
    rw [if_pos hcond, hi]
  have happ2 : applyEntrySuffix [] (entryReduceA sec) = entryReduceA sec := by
    unfold applyEntrySuffix
    simp
  refine ⟨?_, ?_, ?_⟩
  · unfold renderEntryA
    rw [h]
    simp only [happ]
    rw [if_neg (by simp [isEmpty_false_of_ne_nil hres])]
  · intro v
    cases v <;> exact ⟨rfl, rfl⟩
  · unfold renderEntryA
    rw [h]
    simp only [happ2]
    rw [if_neg (by simp [isEmpty_false_of_ne_nil hrne])]

/-- Witness for C8: concrete attribution values yield the exact literal
suffix after the content line. -/
theorem entry_attribution_suffix_witness :
    renderEntryA exBodyContent
        (entrySuffixOf (some "https://x/y/pull/1".data) (some "alice".data))
      = some ((entryReduceA exSecContent).take 86
          ++ pyRStrip ((entryReduceA exSecContent).drop 86)
          ++ (" (".data ++ "https://x/y/pull/1".data ++ " by @".data
              ++ "alice".data ++ ")".data)) :=
  (entry_attribution_suffix exBodyContent "https://x/y/pull/1".data "alice".data
    exSecContent 85 (by decide) (by decide) (by decide) (by decide)).1

/-- C9: the two extractor implementations are not extensionally equal —
on a body with a blank line immediately after the entry header, the
skip-blank-lines implementation keeps the first content line while the
take-second-line-verbatim implementation truncates the section to its
header, so the two output strings differ. -/
theorem extractor_implementations_not_equal :
    make_changelog_description (some exBodyBlankLine) none none
      ≠ make_changelog_description_alt (some exBodyBlankLine) none none := by
  decide
